import Mathlib

/-!
Shallow embedding of the answer-quality scoring and gating engine of the
cortex repository: `scripts/reason_quality_eval.py` (signal extraction,
dimension scoring, case evaluation, suite aggregation) and
`scripts/reason_guardrail_gate.py` (policy gate over a produced report).

Modelling conventions:
* Python floats are modelled as exact rationals (`ℚ`); every numeric
  constant in the source is an exact decimal, and every property below is
  exercised away from representation-dependent ties.
* Python dicts with a fixed key set become structures; optional keys become
  `Option` fields (a `none` field models an absent key).
* The regular expressions of the source are modelled by direct scanning
  functions over the character list, mirroring `re.search` / `re.findall`
  semantics (non-overlapping scan from the left, one attempt per start
  position) for the pattern shapes that actually occur in the source.
* The external reasoning subprocess is modelled at its documented interface
  by an `ExecOutcome` value per case; `subprocess.run(..., timeout=...)`
  raising `TimeoutExpired` is modelled as `Except.error`.
-/

namespace ReasonEval

/-- Python `\w` word character, over the ASCII range exercised here. -/
def isWordChar (c : Char) : Bool := c.isAlphanum || c == '_'

/-- Python `\s` whitespace character, over the ASCII range. -/
def isSpaceChar (c : Char) : Bool :=
  c == ' ' || c == '\t' || c == '\n' || c == '\r' ||
  c == Char.ofNat 11 || c == Char.ofNat 12

/-- Python `str.lower()` (ASCII). -/
def lowerStr (s : String) : String := (s.toList.map Char.toLower).asString

/-- `normalize_text` of reason_quality_eval.py. -/
def normalize_text (s : String) : String := lowerStr s

/-- Does the list `n` occur at the head of the second list? -/
def isStartOf : List Char → List Char → Bool
  | [], _ => true
  | _ :: _, [] => false
  | a :: as, b :: bs => a == b && isStartOf as bs

/-- Substring containment, Python `needle in hay` on strings. -/
def containsSub (n : List Char) : List Char → Bool
  | [] => n.isEmpty
  | c :: rest => isStartOf n (c :: rest) || containsSub n rest

/-- Lexicographic order on character lists by code point (Python string
comparison). -/
def listStrLt : List Char → List Char → Bool
  | [], [] => false
  | [], _ :: _ => true
  | _ :: _, [] => false
  | a :: as, b :: bs => if a < b then true else if b < a then false else listStrLt as bs

/-- Python `s < t` on strings. -/
def strLt (s t : String) : Bool := listStrLt s.toList t.toList

/-- Insert a string into a sorted duplicate-free list, keeping it sorted
and dropping duplicates. -/
def insertSorted (s : String) : List String → List String
  | [] => [s]
  | x :: xs =>
    if strLt s x then s :: x :: xs
    else if s = x then x :: xs
    else x :: insertSorted s xs

/-- Python `sorted(set(l))` for a list of strings. -/
def sortedDedup (l : List String) : List String :=
  l.foldl (fun acc s => insertSorted s acc) []

/-- `unique_hits`: case-insensitive substring hits of `terms` in `text`,
deduplicated and sorted. -/
def unique_hits (text : String) (terms : List String) : List String :=
  let t := normalize_text text
  let seen := terms.filter (fun term => containsSub (lowerStr term).toList t.toList)
  sortedDedup seen

/-! ### Pattern library (the module-level regexes, as scanning functions) -/

/-- Word-boundary test between the last consumed character and the rest of
the input (`\b`: the two sides differ in word-character-ness; end of input
counts as a non-word character). -/
def boundaryOk (lastC : Char) (r : List Char) : Bool :=
  isWordChar lastC != (match r with | [] => false | c2 :: _ => isWordChar c2)

/-- Match a literal alternative that starts and ends with a word character
(the `\b(...)\b` alternatives), checking the trailing boundary. -/
def matchWordLit (alt : List Char) (cs : List Char) : Bool :=
  isStartOf alt cs && boundaryOk (alt.getLastD ' ') (cs.drop alt.length)

/-- `re.search` over all start positions for patterns whose every
alternative begins with a word character: the leading `\b` holds exactly
when the preceding character is not a word character. -/
def searchPos (p : List Char → Bool) : List Char → Option Char → Bool
  | [], _ => false
  | c :: rest, prev =>
    (!(prev.elim false isWordChar) && p (c :: rest)) || searchPos p rest (some c)

/-- Alternatives of `CONTRADICTION_PROMPT_HINT`
(`\b(conflict|contradict|inconsistent|mismatch|trade[- ]off|disagree)\b`). -/
def HINT_ALTS : List (List Char) :=
  ["conflict", "contradict", "inconsistent", "mismatch",
   "trade-off", "trade off", "disagree"].map String.toList

/-- `CONTRADICTION_PROMPT_HINT.search(prompt)` (IGNORECASE). -/
def contradictionPromptHint (prompt : String) : Bool :=
  searchPos (fun cs => HINT_ALTS.any (fun a => matchWordLit a cs))
    (lowerStr prompt).toList none

/-- Literal alternatives of `DATE_OWNER_RE`. -/
def DATE_OWNER_ALTS : List (List Char) :=
  ["owner", "who", "today", "tomorrow", "this week", "next week",
   "next sprint", "due"].map String.toList

/-- The `by\s+\w+` alternative of `DATE_OWNER_RE`: `by`, one or more
whitespace characters, then a word character. -/
def matchByPhrase (cs : List Char) : Bool :=
  isStartOf ['b', 'y'] cs &&
  (match cs.drop 2 with
   | c :: rest =>
     isSpaceChar c &&
     (match (c :: rest).dropWhile isSpaceChar with
      | c2 :: _ => isWordChar c2
      | [] => false)
   | [] => false)

/-- `DATE_OWNER_RE.search(t)` on the already-lowercased text. -/
def dateOwnerSearch (t : String) : Bool :=
  searchPos
    (fun cs => DATE_OWNER_ALTS.any (fun a => matchWordLit a cs) || matchByPhrase cs)
    t.toList none

/-- One `BULLET_RE` attempt at a line start (`\s*(?:[-*]|\d+\.)\s+`):
returns the last consumed character and the remaining input. -/
def bulletMatch (cs : List Char) : Option (Char × List Char) :=
  let afterMarker : List Char → Option (Char × List Char) := fun r =>
    match r with
    | c :: r2 =>
      if isSpaceChar c then
        some ((r2.takeWhile isSpaceChar).getLastD c, r2.dropWhile isSpaceChar)
      else none
    | [] => none
  let rest := cs.dropWhile isSpaceChar
  match rest with
  | [] => none
  | '-' :: r => afterMarker r
  | '*' :: r => afterMarker r
  | c :: _ =>
    if c.isDigit then
      match rest.dropWhile Char.isDigit with
      | '.' :: r2 => afterMarker r2
      | _ => none
    else none

/-- `re.findall` count for a multiline line-anchored pattern: one attempt
per position where `^` holds, advancing past each match.  Fuel bounds the
recursion by the text length (every step consumes at least one character). -/
def lineScan (matchAt : List Char → Option (Char × List Char)) :
    Nat → List Char → Bool → Nat
  | 0, _, _ => 0
  | _ + 1, [], _ => 0
  | fuel + 1, c :: rest, lineStart =>
    if lineStart then
      match matchAt (c :: rest) with
      | some (lastC, cs2) => 1 + lineScan matchAt fuel cs2 (lastC == '\n')
      | none => lineScan matchAt fuel rest (c == '\n')
    else lineScan matchAt fuel rest (c == '\n')

/-- `len(BULLET_RE.findall(text))`. -/
def bulletCount (text : String) : Nat :=
  lineScan bulletMatch (text.length + 1) text.toList true

/-- One `HEADING_RE` attempt at a line start
(`\s*(?:#{1,3}\s+|\*\*[^*]+\*\*)`). -/
def headingMatch (cs : List Char) : Option (Char × List Char) :=
  let rest := cs.dropWhile isSpaceChar
  match rest with
  | '#' :: _ =>
    let hashes := rest.takeWhile (fun c => c == '#')
    let r2 := rest.dropWhile (fun c => c == '#')
    if hashes.length ≤ 3 then
      match r2 with
      | c :: r3 =>
        if isSpaceChar c then
          some ((r3.takeWhile isSpaceChar).getLastD c, r3.dropWhile isSpaceChar)
        else none
      | [] => none
    else none
  | '*' :: '*' :: r =>
    let inner := r.takeWhile (fun c => c != '*')
    let r2 := r.dropWhile (fun c => c != '*')
    if inner.length ≥ 1 then
      match r2 with
      | '*' :: '*' :: r3 => some ('*', r3)
      | _ => none
    else none
  | _ => none

/-- `len(HEADING_RE.findall(text))`. -/
def headingCount (text : String) : Nat :=
  lineScan headingMatch (text.length + 1) text.toList true

/-- Count of maximal word-character runs (`len(WORD_RE.findall(text))`,
`WORD_RE = \b\w+\b`). -/
def wordCountAux : List Char → Bool → Nat
  | [], _ => 0
  | c :: rest, prevWord =>
    if isWordChar c && !prevWord then 1 + wordCountAux rest true
    else wordCountAux rest (isWordChar c)

def wordCount (text : String) : Nat := wordCountAux text.toList false

/-- `len(CONFIDENCE_RE.findall(text))` (`\[[01]\.\d{2}\]`), non-overlapping
left-to-right scan. -/
def confidenceAux : Nat → List Char → Nat
  | 0, _ => 0
  | _ + 1, [] => 0
  | fuel + 1, c :: rest =>
    match c, rest with
    | '[', b :: '.' :: d1 :: d2 :: ']' :: rest2 =>
      if (b == '0' || b == '1') && d1.isDigit && d2.isDigit then
        1 + confidenceAux fuel rest2
      else confidenceAux fuel rest
    | _, _ => confidenceAux fuel rest

def confidenceCount (text : String) : Nat :=
  confidenceAux (text.length + 1) text.toList

/-- Character class `[\w . / -]` (written spaced here) of `FILE_LINE_RE`. -/
def isFileClassChar (c : Char) : Bool :=
  isWordChar c || c == '.' || c == '/' || c == '-'

/-- Extension alternation of `FILE_LINE_RE` (matched case-insensitively). -/
def FILE_EXTS : List (List Char) :=
  ["md", "txt", "json", "yaml", "yml", "go", "py"].map String.toList

/-- One `FILE_LINE_RE` attempt
(`\b[\w . / -]+\.(?:md|txt|json|yaml|yml|go|py):\d+\b` with the class
written spaced here, IGNORECASE) at the
current position; `prev` is the preceding character.  Since `:` is outside
the character class, the backtracking engine succeeds exactly when the
maximal class run from here ends in `.` + extension and is followed by `:`
and digits, with word boundaries at both ends. -/
def fileLineMatch (prev : Option Char) (cs : List Char) : Option (Char × List Char) :=
  match cs with
  | [] => none
  | c :: _ =>
    if isFileClassChar c && (isWordChar c != prev.elim false isWordChar) then
      let run := cs.takeWhile isFileClassChar
      let afterRun := cs.dropWhile isFileClassChar
      let runL := run.map Char.toLower
      let extOk := FILE_EXTS.any (fun ext =>
        decide (run.length ≥ ext.length + 2) &&
        isStartOf ('.' :: ext) (runL.drop (runL.length - (ext.length + 1))))
      match afterRun with
      | ':' :: d :: r2 =>
        let afterDigits := r2.dropWhile Char.isDigit
        let tailOk := match afterDigits with
          | [] => true
          | c2 :: _ => !isWordChar c2
        if extOk && d.isDigit && tailOk then
          some ((r2.takeWhile Char.isDigit).getLastD d, afterDigits)
        else none
      | ':' :: [] => none
      | _ => none
    else none

def fileLineAux : Nat → Option Char → List Char → Nat
  | 0, _, _ => 0
  | _ + 1, _, [] => 0
  | fuel + 1, prev, c :: rest =>
    match fileLineMatch prev (c :: rest) with
    | some (lastC, cs2) => 1 + fileLineAux fuel (some lastC) cs2
    | none => fileLineAux fuel (some c) rest

/-- `len(FILE_LINE_RE.findall(text))`. -/
def fileLineCount (text : String) : Nat :=
  fileLineAux (text.length + 1) none text.toList

/-- One `NUMERIC_SPEC_RE` attempt (`\b\d+(?:\.\d+)?%?\b`) at the current
position, with the engine's backtracking order: fraction+percent,
fraction, percent, plain digits. -/
def numSpecMatch (prev : Option Char) (cs : List Char) : Option (Char × List Char) :=
  match cs with
  | [] => none
  | c :: _ =>
    if c.isDigit && !(prev.elim false isWordChar) then
      let afterInt := cs.dropWhile Char.isDigit
      let intLast := (cs.takeWhile Char.isDigit).getLastD c
      let tryPct : Char → List Char → Option (Char × List Char) := fun _ r =>
        match r with
        | '%' :: r2 => if boundaryOk '%' r2 then some ('%', r2) else none
        | _ => none
      let tryPlain : Char → List Char → Option (Char × List Char) := fun lastC r =>
        if boundaryOk lastC r then some (lastC, r) else none
      let fracOpt : Option (Char × List Char) :=
        match afterInt with
        | '.' :: d :: r2 =>
          if d.isDigit then
            some (((d :: r2).takeWhile Char.isDigit).getLastD d,
                  (d :: r2).dropWhile Char.isDigit)
          else none
        | _ => none
      match fracOpt with
      | some (fl, fr) =>
        (tryPct fl fr).orElse (fun _ =>
          (tryPlain fl fr).orElse (fun _ =>
            (tryPct intLast afterInt).orElse (fun _ => tryPlain intLast afterInt)))
      | none =>
        (tryPct intLast afterInt).orElse (fun _ => tryPlain intLast afterInt)
    else none

def numSpecAux : Nat → Option Char → List Char → Nat
  | 0, _, _ => 0
  | _ + 1, _, [] => 0
  | fuel + 1, prev, c :: rest =>
    match numSpecMatch prev (c :: rest) with
    | some (lastC, cs2) => 1 + numSpecAux fuel (some lastC) cs2
    | none => numSpecAux fuel (some c) rest

/-- `len(NUMERIC_SPEC_RE.findall(text))`. -/
def numSpecCount (text : String) : Nat :=
  numSpecAux (text.length + 1) none text.toList

/-! ### Term lists and dimension constants -/

def DIMENSIONS : List String :=
  ["actionability", "factual_grounding", "contradiction_handling", "usefulness"]

def DEFAULT_WEIGHTS (dim : String) : ℚ :=
  if dim = "actionability" then 0.30
  else if dim = "factual_grounding" then 0.30
  else if dim = "contradiction_handling" then 0.15
  else if dim = "usefulness" then 0.25
  else 0

def DEFAULT_MIN_SCORES (dim : String) : ℚ :=
  if dim = "actionability" then 0.55
  else if dim = "factual_grounding" then 0.50
  else if dim = "contradiction_handling" then 0.50
  else if dim = "usefulness" then 0.60
  else 0

def ACTION_TERMS : List String :=
  ["next step", "next steps", "recommend", "recommendation", "do this",
   "ship", "implement", "fix", "owner", "timeline", "priority",
   "follow-up", "mitigation"]

def GROUNDING_TERMS : List String :=
  ["source", "sources", "fact", "facts", "memory", "memories", "confidence",
   "evidence", "according", "from", "based on", "provenance"]

def CONTRADICTION_TERMS : List String :=
  ["contradiction", "contradict", "conflict", "inconsistent", "mismatch",
   "however", "on the other hand", "trade-off", "uncertain", "cannot verify"]

def RESOLUTION_TERMS : List String :=
  ["resolve", "reconcile", "supersede", "verify", "confirm", "deprecate",
   "follow up"]

def USEFULNESS_TERMS : List String :=
  ["summary", "impact", "risk", "recommendation", "decision", "priority",
   "why", "because"]

/-! ### Scoring machinery -/

/-- Python `round(x, 4)` transplanted to exact rationals: round half to
even at four decimal places. -/
def pyRound4 (q : ℚ) : ℚ :=
  let x := q * 10000
  let f : ℤ := ⌊x⌋
  let frac := x - f
  let n : ℤ :=
    if frac < 1 / 2 then f
    else if 1 / 2 < frac then f + 1
    else if f % 2 = 0 then f else f + 1
  (n : ℚ) / 10000

/-- Per-dimension `SignalConfig` of the fixture; a `none` field models an
absent key.  (`max_words` never occurs in the scoring code and is elided.) -/
structure SignalConfig where
  must_include_any : Option (List String) := none
  min_hits : Option Int := none
  min_score : Option ℚ := none
  required : Option Bool := none
  min_words : Option Int := none
  deriving DecidableEq

/-- The diagnostic `details` dicts of the scorers, flattened into one
structure; each scorer populates the fields its Python dict carries. -/
structure Details where
  hits : List String := []
  hit_count : Nat := 0
  min_hits : Int := 1
  terms : List String := []
  keyword_score : ℚ := 0
  heuristic_score : ℚ := 0
  bullet_lines : Nat := 0
  action_term_hits : Nat := 0
  owner_or_time_detected : Bool := false
  confidence_tags : Nat := 0
  file_line_mentions : Nat := 0
  provenance_hits : Nat := 0
  uncertainty_hits : Nat := 0
  contains_from_phrase : Bool := false
  contradiction_hits : Nat := 0
  resolution_hits : Nat := 0
  word_score : ℚ := 0
  word_count : Nat := 0
  min_words : Int := 0
  headings : Nat := 0
  specificity_tokens : Nat := 0
  mode : Option String := none
  deriving DecidableEq

/-- `keyword_score(text, cfg, fallback_terms)`: the coverage ratio clamped
to 1, plus the detail dict. -/
def keyword_score (text : String) (cfg : SignalConfig)
    (fallback_terms : List String) : ℚ × Details :=
  let terms := cfg.must_include_any.getD fallback_terms
  let min_hits : Int := max 1 (cfg.min_hits.getD 1)
  let hits := unique_hits text terms
  let score : ℚ := min 1 ((hits.length : ℚ) / (min_hits : ℚ))
  (score, { hits := hits, hit_count := hits.length, min_hits := min_hits,
            terms := terms })

/-- `to_rubric`. -/
def to_rubric (score : ℚ) : Nat :=
  if score ≥ 0.85 then 3
  else if score ≥ 0.65 then 2
  else if score ≥ 0.40 then 1
  else 0

/-- One dimension's result dict.  The Python dict for the three
unconditional scorers has no `required` key (modelled `none`); `min_score`
and `passed` are added later by `evaluate_case` (modelled as `Option`
fields filled in by the evaluation loop). -/
structure DimensionResult where
  score : ℚ
  rubric_score : Nat
  required : Option Bool := none
  min_score : Option ℚ := none
  passed : Option Bool := none
  details : Details := {}
  deriving DecidableEq

/-- `score_actionability`. -/
def score_actionability (text : String) (cfg : SignalConfig) : DimensionResult :=
  let kwp := keyword_score text cfg ACTION_TERMS
  let kw := kwp.1
  let t := normalize_text text
  let bullets := bulletCount text
  let action_hits := (unique_hits text ACTION_TERMS).length
  let has_owner_or_time := dateOwnerSearch t
  let heur0 : ℚ :=
    (if bullets ≥ 2 then 0.35 else if bullets = 1 then 0.20 else 0)
    + (if action_hits ≥ 3 then 0.35 else if action_hits > 0 then 0.20 else 0)
    + (if has_owner_or_time then 0.30 else 0)
  let heur := min 1 heur0
  let score := 0.60 * kw + 0.40 * heur
  { score := pyRound4 score
    rubric_score := to_rubric score
    details := { kwp.2 with
      keyword_score := pyRound4 kw
      heuristic_score := pyRound4 heur
      bullet_lines := bullets
      action_term_hits := action_hits
      owner_or_time_detected := has_owner_or_time } }

/-- `score_factual_grounding`. -/
def score_factual_grounding (text : String) (cfg : SignalConfig) : DimensionResult :=
  let kwp := keyword_score text cfg GROUNDING_TERMS
  let kw := kwp.1
  let t := normalize_text text
  let confidence_tags := confidenceCount text
  let file_line_mentions := fileLineCount text
  let provenance_hits :=
    (unique_hits text ["source", "fact", "memory", "evidence", "provenance"]).length
  let uncertainty_hits :=
    (unique_hits text ["confidence", "likely", "uncertain", "unknown", "cannot verify"]).length
  let heur0 : ℚ :=
    (if confidence_tags + file_line_mentions ≥ 2 then 0.50
     else if confidence_tags + file_line_mentions ≥ 1 then 0.30 else 0)
    + (if provenance_hits ≥ 2 then 0.30 else if provenance_hits = 1 then 0.15 else 0)
    + (if uncertainty_hits ≥ 1 then 0.20 else 0)
  let heur := min 1 heur0
  let score := 0.65 * kw + 0.35 * heur
  { score := pyRound4 score
    rubric_score := to_rubric score
    details := { kwp.2 with
      keyword_score := pyRound4 kw
      heuristic_score := pyRound4 heur
      confidence_tags := confidence_tags
      file_line_mentions := file_line_mentions
      provenance_hits := provenance_hits
      uncertainty_hits := uncertainty_hits
      contains_from_phrase := containsSub "from".toList t.toList } }

/-- `contradiction_required`: explicit `required` key wins, otherwise the
conflict-hint pattern is matched against the prompt. -/
def contradiction_required (prompt : String) (cfg : SignalConfig) : Bool :=
  match cfg.required with
  | some b => b
  | none => contradictionPromptHint prompt

/-- `score_contradiction_handling`: vacuously satisfied when not required. -/
def score_contradiction_handling (prompt : String) (text : String)
    (cfg : SignalConfig) : DimensionResult :=
  let required := contradiction_required prompt cfg
  if !required then
    { score := 1
      rubric_score := 3
      required := some false
      details := { mode := some "not-required" } }
  else
    let kwp := keyword_score text cfg CONTRADICTION_TERMS
    let kw := kwp.1
    let contradiction_hits := (unique_hits text CONTRADICTION_TERMS).length
    let resolution_hits := (unique_hits text RESOLUTION_TERMS).length
    let uncertainty_hits :=
      (unique_hits text ["uncertain", "cannot verify", "unknown", "confidence"]).length
    let heur0 : ℚ :=
      (if resolution_hits ≥ 1 then 0.50 else 0.20)
      + (if uncertainty_hits ≥ 1 then 0.30 else 0)
      + (if contradiction_hits ≥ 2 then 0.20
         else if contradiction_hits = 1 then 0.10 else 0)
    let heur := min 1 heur0
    let score := 0.70 * kw + 0.30 * heur
    { score := pyRound4 score
      rubric_score := to_rubric score
      required := some true
      details := { kwp.2 with
        keyword_score := pyRound4 kw
        heuristic_score := pyRound4 heur
        contradiction_hits := contradiction_hits
        resolution_hits := resolution_hits
        uncertainty_hits := uncertainty_hits } }

/-- `score_usefulness`. -/
def score_usefulness (text : String) (cfg : SignalConfig) : DimensionResult :=
  let kwp := keyword_score text cfg USEFULNESS_TERMS
  let kw := kwp.1
  let words := wordCount text
  let min_words : Int := max 40 (cfg.min_words.getD 100)
  let word_score : ℚ := min 1 ((words : ℚ) / (min_words : ℚ))
  let headings := headingCount text
  let bullets := bulletCount text
  let specificity := numSpecCount text
  let summary_hits :=
    (unique_hits text ["summary", "recommend", "risk", "impact", "decision"]).length
  let heur0 : ℚ :=
    (if headings ≥ 1 then 0.25 else 0)
    + (if bullets ≥ 3 then 0.25 else if bullets ≥ 1 then 0.10 else 0)
    + (if specificity ≥ 2 then 0.25 else if specificity ≥ 1 then 0.10 else 0)
    + (if summary_hits ≥ 2 then 0.25 else if summary_hits = 1 then 0.10 else 0)
  let heur := min 1 heur0
  let score := 0.40 * word_score + 0.35 * kw + 0.25 * heur
  { score := pyRound4 score
    rubric_score := to_rubric score
    details := { kwp.2 with
      keyword_score := pyRound4 kw
      word_score := pyRound4 word_score
      heuristic_score := pyRound4 heur
      word_count := words
      min_words := min_words
      headings := headings
      bullet_lines := bullets
      specificity_tokens := specificity } }

/-! ### Case evaluation -/

/-- `signal_cfg(signals, dim)`: first matching candidate key, else the
empty config.  `expected_signals` dicts are modelled as association lists
of `SignalConfig` values (each value is a dict in every fixture shape the
script accepts). -/
def signal_cfg (signals : List (String × SignalConfig)) (dim : String) :
    SignalConfig :=
  let candidates :=
    [dim] ++
    (if dim = "factual_grounding" then
       ["grounding", "grounding_score", "factual_grounding_score"]
     else if dim = "usefulness" then
       ["concise_clarity", "concise_clarity_score", "usefulness_score"]
     else if dim = "actionability" then ["actionability_score"]
     else if dim = "contradiction_handling" then ["contradiction_handling_score"]
     else [])
  match candidates.findSome? (fun k => List.lookup k signals) with
  | some cfg => cfg
  | none => {}

/-- One fixture case; a `none` field models an absent key.  Per-case
execution overrides (preset, project, model, reason_args) do not influence
scoring and are elided. -/
structure EvalCase where
  id : Option String := none
  prompt : Option String := none
  query : Option String := none
  expected_signals : List (String × SignalConfig) := []
  deriving DecidableEq

/-- The `dims` dict of `evaluate_case`, keyed by the four dimensions. -/
structure Dims where
  actionability : DimensionResult
  factual_grounding : DimensionResult
  contradiction_handling : DimensionResult
  usefulness : DimensionResult
  deriving DecidableEq

/-- `dims[dim]` (only ever applied to members of `DIMENSIONS`). -/
def Dims.get (d : Dims) (dim : String) : DimensionResult :=
  if dim = "actionability" then d.actionability
  else if dim = "factual_grounding" then d.factual_grounding
  else if dim = "contradiction_handling" then d.contradiction_handling
  else d.usefulness

/-- In-place update `dims[dim] = f(dims[dim])`. -/
def Dims.update (d : Dims) (dim : String) (f : DimensionResult → DimensionResult) :
    Dims :=
  if dim = "actionability" then { d with actionability := f d.actionability }
  else if dim = "factual_grounding" then
    { d with factual_grounding := f d.factual_grounding }
  else if dim = "contradiction_handling" then
    { d with contradiction_handling := f d.contradiction_handling }
  else { d with usefulness := f d.usefulness }

/-- A `hard_failures` entry `{"dimension": ..., "score": ..., "min": ...}`. -/
structure HardFailure where
  dimension : String
  score : ℚ
  min : ℚ
  deriving DecidableEq

/-- Accumulator of the `for dim in DIMENSIONS` loop of `evaluate_case`. -/
structure LoopState where
  dims : Dims
  weighted_total : ℚ
  weight_sum : ℚ
  hard_failures : List HardFailure
  deriving DecidableEq

/-- Result of `evaluate_case`.  `overall_raw` keeps the local `overall`
(before `round(..., 4)`), from which `passed` is computed. -/
structure CaseResult where
  overall_score : ℚ
  overall_raw : ℚ
  overall_rubric_score : Nat
  case_min_overall : ℚ
  passed : Bool
  hard_failures : List HardFailure
  dimension_scores : Dims
  deriving DecidableEq

/-- The verdict part of `evaluate_case` (lines 414-442): the weighted
total, the per-dimension required/minimum policy, and the final verdict,
given the four freshly scored dimension results. -/
def case_verdict (signals : List (String × SignalConfig)) (dims0 : Dims)
    (weights : List (String × ℚ)) (case_min_overall : ℚ) : CaseResult :=
  let st := DIMENSIONS.foldl
    (fun (acc : LoopState) dim =>
      let w : ℚ := (List.lookup dim weights).getD (DEFAULT_WEIGHTS dim)
      let weight_sum := acc.weight_sum + w
      let weighted_total := acc.weighted_total + (acc.dims.get dim).score * w
      let cfg := signal_cfg signals dim
      let required := ((acc.dims.get dim).required).getD true
      let min_score : ℚ := cfg.min_score.getD (DEFAULT_MIN_SCORES dim)
      let passed_dim : Bool :=
        (!required) || decide ((acc.dims.get dim).score ≥ min_score)
      let hard_failures :=
        if required && !passed_dim then
          acc.hard_failures ++
            [{ dimension := dim, score := (acc.dims.get dim).score,
               min := min_score }]
        else acc.hard_failures
      let dims := acc.dims.update dim
        (fun r => { r with min_score := some min_score, passed := some passed_dim })
      { dims := dims, weighted_total := weighted_total,
        weight_sum := weight_sum, hard_failures := hard_failures })
    { dims := dims0, weighted_total := 0, weight_sum := 0, hard_failures := [] }
  let overall : ℚ := if st.weight_sum > 0 then st.weighted_total / st.weight_sum else 0
  { overall_score := pyRound4 overall
    overall_raw := overall
    overall_rubric_score := to_rubric overall
    case_min_overall := case_min_overall
    passed := decide (overall ≥ case_min_overall) && st.hard_failures.isEmpty
    hard_failures := st.hard_failures
    dimension_scores := st.dims }

/-- `evaluate_case(case, content, weights, case_min_overall)`. -/
def evaluate_case (case : EvalCase) (content : String)
    (weights : List (String × ℚ)) (case_min_overall : ℚ) : CaseResult :=
  let signals := case.expected_signals
  let dims0 : Dims :=
    { actionability := score_actionability content (signal_cfg signals "actionability")
      factual_grounding :=
        score_factual_grounding content (signal_cfg signals "factual_grounding")
      contradiction_handling :=
        score_contradiction_handling (case.prompt.getD "") content
          (signal_cfg signals "contradiction_handling")
      usefulness := score_usefulness content (signal_cfg signals "usefulness") }
  case_verdict signals dims0 weights case_min_overall

/-! ### Fixture loading -/

/-- The raw fixture JSON object, restricted to the keys `load_fixture`
validates (a typed model cannot represent a non-list `cases` value;
weights/thresholds/defaults are read later, by `main`). -/
structure RawFixture where
  cases : Option (List EvalCase) := none
  prompts : Option (List EvalCase) := none
  deriving DecidableEq

/-- `load_fixture`: legacy `prompts` aliasing, then the only two schema
checks the script performs.  Returns the effective cases list. -/
def load_fixture (raw : RawFixture) : Except String (List EvalCase) :=
  let cases := match raw.cases with
    | some cs => some cs
    | none => raw.prompts
  match cases with
  | none =>
    Except.error "fixture must contain a 'cases' array (or legacy 'prompts' array)"
  | some cs =>
    if cs.isEmpty then Except.error "fixture has no cases" else Except.ok cs

/-! ### External reasoning call (`run_reason`) -/

/-- The JSON payload printed by the external reasoning process, restricted
to the fields the harness reads for scoring (`provider`, `model`,
`tokens_in`, `duration` are carried to the report verbatim and elided). -/
structure Payload where
  content : Option String := none
  answer : Option String := none
  tokens_out : Option Int := none
  deriving DecidableEq

/-- Behaviour of one external call, at the documented collaborator
interface: it may exceed the timeout, exit non-zero, exit zero with
unparsable stdout, or exit zero with a JSON payload. -/
inductive ExecOutcome where
  | timedOut
  | exitNonzero (returncode : Int) (stdout : String) (stderr : String)
  | exitZeroBadJson (excMsg : String)
  | exitZeroJson (stdout : String) (payload : Payload)
  deriving DecidableEq

/-- The dict returned by `run_reason` (elapsed/cmd metadata elided). -/
structure RunResult where
  returncode : Int
  stdout : String := ""
  stderr : String := ""
  payload : Option Payload := none
  deriving DecidableEq

/-- `run_reason`: `subprocess.run(cmd, ..., timeout=timeout_sec)` raises
`subprocess.TimeoutExpired` when the call exceeds the timeout, and
`run_reason` has no handler for it, so a timeout propagates as an
exception (`Except.error`); the other outcomes produce the result dict of
lines 530-549. -/
def run_reason (outcome : ExecOutcome) : Except Unit RunResult :=
  match outcome with
  | ExecOutcome.timedOut => Except.error ()
  | ExecOutcome.exitNonzero rc out err =>
    Except.ok { returncode := rc, stdout := out, stderr := err }
  | ExecOutcome.exitZeroBadJson msg =>
    Except.ok { returncode := 2, stderr := "failed to parse JSON output: " ++ msg }
  | ExecOutcome.exitZeroJson out p =>
    Except.ok { returncode := 0, stdout := out, payload := some p }

/-! ### Suite loop and aggregation (`main`, lines 618-755) -/

/-- Python `a or b` over optional strings (empty string is falsy). -/
def orStr (a b : Option String) : Option String :=
  match a with
  | some s => if s = "" then b else some s
  | none => b

/-- Python `str.strip()` (ASCII whitespace). -/
def stripStr (s : String) : String :=
  (((s.toList.dropWhile isSpaceChar).reverse.dropWhile isSpaceChar).reverse).asString

/-- Python `f"case-{idx:03d}"` padding. -/
def pad3 (n : Nat) : String :=
  if n < 10 then "00" ++ toString n
  else if n < 100 then "0" ++ toString n
  else toString n

/-- One entry of the suite `results` list.  Scored entries and error
entries share the shape; a `none` field models an absent key (error
entries carry no score and no dimension dict).  Prompt/latency/provider
metadata copied to the report verbatim is elided. -/
structure ResultEntry where
  id : String
  passed : Bool := false
  error : Option String := none
  overall_score : Option ℚ := none
  hard_failures : List HardFailure := []
  dims : Option Dims := none
  empty_content : Option Bool := none
  deriving DecidableEq

/-- The `dimension_rollup` dict: per-dimension score lists, appended only
for scored cases. -/
structure Rollup where
  actionability : List ℚ := []
  factual_grounding : List ℚ := []
  contradiction_handling : List ℚ := []
  usefulness : List ℚ := []
  deriving DecidableEq

def Rollup.get (r : Rollup) (dim : String) : List ℚ :=
  if dim = "actionability" then r.actionability
  else if dim = "factual_grounding" then r.factual_grounding
  else if dim = "contradiction_handling" then r.contradiction_handling
  else r.usefulness

/-- `for dim in DIMENSIONS: dimension_rollup[dim].append(score_d)`. -/
def Rollup.appendScores (r : Rollup) (d : Dims) : Rollup :=
  { actionability := r.actionability ++ [d.actionability.score]
    factual_grounding := r.factual_grounding ++ [d.factual_grounding.score]
    contradiction_handling :=
      r.contradiction_handling ++ [d.contradiction_handling.score]
    usefulness := r.usefulness ++ [d.usefulness.score] }

/-- The per-case loop of `main` (lines 621-698), sequential over the
cases, with the external call of each case given by its `ExecOutcome`.
An uncaught exception from `run_reason` (the timeout) propagates and
aborts the whole loop. -/
def runCasesGo (weights : List (String × ℚ)) (case_min_overall : ℚ) :
    Nat → List (EvalCase × ExecOutcome) → List ResultEntry × Rollup →
    Except Unit (List ResultEntry × Rollup)
  | _, [], acc => Except.ok acc
  | idx, (case, outcome) :: rest, (results, roll) =>
    let case_id := case.id.getD ("case-" ++ pad3 idx)
    let prompt := (orStr case.prompt case.query).getD ""
    if prompt = "" then
      runCasesGo weights case_min_overall (idx + 1) rest
        (results ++ [{ id := case_id, passed := false,
                       error := some "missing prompt/query" }], roll)
    else
      match run_reason outcome with
      | Except.error e => Except.error e
      | Except.ok run =>
        if run.returncode ≠ 0 then
          runCasesGo weights case_min_overall (idx + 1) rest
            (results ++ [{ id := case_id, passed := false,
                           error := some (stripStr run.stderr) }], roll)
        else
          let payload := run.payload.getD {}
          let content := (orStr payload.content payload.answer).getD ""
          let empty_content : Bool :=
            (stripStr content == "") && decide (payload.tokens_out.getD 0 > 0)
          let scored := evaluate_case case content weights case_min_overall
          let entry : ResultEntry :=
            { id := case_id, passed := scored.passed,
              overall_score := some scored.overall_score,
              hard_failures := scored.hard_failures,
              dims := some scored.dimension_scores,
              empty_content := some empty_content }
          runCasesGo weights case_min_overall (idx + 1) rest
            (results ++ [entry], roll.appendScores scored.dimension_scores)

/-- The suite loop from an empty accumulator (cases enumerated from 1). -/
def runCases (pairs : List (EvalCase × ExecOutcome))
    (weights : List (String × ℚ)) (case_min_overall : ℚ) :
    Except Unit (List ResultEntry × Rollup) :=
  runCasesGo weights case_min_overall 1 pairs ([], {})

/-- Results of a finished (non-aborted) suite loop; an aborted loop left
nothing behind. -/
def resultsOf (x : Except Unit (List ResultEntry × Rollup)) : List ResultEntry :=
  match x with
  | Except.ok (res, _) => res
  | Except.error _ => []

def rollupOf (x : Except Unit (List ResultEntry × Rollup)) : Rollup :=
  match x with
  | Except.ok (_, roll) => roll
  | Except.error _ => {}

/-- `statistics.fmean(vals) if vals else 0.0`. -/
def meanQ (l : List ℚ) : ℚ :=
  if l.isEmpty then 0 else l.sum / (l.length : ℚ)

/-- One `dimension_threshold_failures` entry. -/
structure DimThresholdFailure where
  dimension : String
  avg : ℚ
  min_avg : ℚ
  deriving DecidableEq

/-- The report's `summary` object (thresholds echo elided). -/
structure Summary where
  total_cases : Nat
  passed_cases : Nat
  failed_cases : Nat
  error_cases : Nat
  pass_rate : ℚ
  average_overall_score : ℚ
  dimension_averages : List (String × ℚ)
  dimension_threshold_failures : List DimThresholdFailure
  passed : Bool
  deriving DecidableEq

/-- The post-loop aggregation of `main` (lines 700-753): counts, rates,
dimension averages over the rollup, suite-level dimension minimums, and
the suite verdict.  Rates and averages are rounded to 4 places in the
emitted summary; `passed` uses the unrounded values, as in the source. -/
def summarize (results : List ResultEntry) (roll : Rollup)
    (suite_min_pass_rate : ℚ) (suite_dim_mins : List (String × ℚ))
    (fail_on_errors : Bool) : Summary :=
  let total := results.length
  let passedN := results.countP (fun r => r.passed)
  let errors := results.countP (fun r => r.error.isSome)
  let failed := total - passedN
  let pass_rate : ℚ := if total = 0 then 0 else (passedN : ℚ) / (total : ℚ)
  let avg_overall := meanQ (results.filterMap (fun r => r.overall_score))
  let dim_avgs : String → ℚ := fun d => meanQ (roll.get d)
  let dim_failures := DIMENSIONS.filterMap (fun d =>
    let min_avg := (List.lookup d suite_dim_mins).getD 0
    if min_avg > 0 ∧ dim_avgs d < min_avg then
      some { dimension := d, avg := pyRound4 (dim_avgs d), min_avg := min_avg }
    else none)
  let suite_passed :=
    decide (pass_rate ≥ suite_min_pass_rate) && dim_failures.isEmpty &&
    (!fail_on_errors || decide (errors = 0))
  { total_cases := total
    passed_cases := passedN
    failed_cases := failed
    error_cases := errors
    pass_rate := pyRound4 pass_rate
    average_overall_score := pyRound4 avg_overall
    dimension_averages := DIMENSIONS.map (fun d => (d, pyRound4 (dim_avgs d)))
    dimension_threshold_failures := dim_failures
    passed := suite_passed }

/-! ### Guardrail gate (`reason_guardrail_gate.py`) -/

/-- The `summary` object of a report as read by the gate; `none` models an
absent key, and `safe_float`/`int` coercions of present keys are the
`getD` defaults at the use sites. -/
structure GateSummaryIn where
  total_cases : Option Int := none
  pass_rate : Option ℚ := none
  average_overall_score : Option ℚ := none
  dimension_averages : List (String × ℚ) := []
  error_cases : Option Int := none
  deriving DecidableEq

/-- A report file as read by the gate. -/
structure GateReport where
  summary : GateSummaryIn := {}
  results : List ResultEntry := []
  deriving DecidableEq

/-- The gate's CLI thresholds, with the argparse defaults. -/
structure GateArgs where
  min_pass_rate : ℚ := 0.80
  min_overall : ℚ := 0.72
  min_grounding : ℚ := 0.62
  min_actionability : ℚ := 0.65
  min_usefulness : ℚ := 0.68
  max_error_rate : ℚ := 0.05
  max_empty_content_rate : ℚ := 0.02
  max_hard_failure_rate : ℚ := 0.10
  deriving DecidableEq

/-- A check's bound: `"min"` or `"max"` key. -/
inductive Bound where
  | minB (b : ℚ)
  | maxB (b : ℚ)
  deriving DecidableEq

structure Check where
  name : String
  value : ℚ
  bound : Bound
  ok : Bool
  deriving DecidableEq

/-- The gate's output.  `error_rate`, `empty_content_rate`,
`hard_failure_rate` are the computed locals (they appear rounded in the
emitted summary and unrounded as check values). -/
structure GateDecision where
  passed : Bool
  total_cases : Int
  error_rate : ℚ
  empty_content_rate : ℚ
  hard_failure_rate : ℚ
  checks : List Check
  failed_checks : List Check
  deriving DecidableEq

/-- `main` of reason_guardrail_gate.py (lines 37-112): totals and rates,
the eight threshold checks, and the verdict. -/
def gateMain (report : GateReport) (args : GateArgs) : GateDecision :=
  let summary := report.summary
  let results := report.results
  let total : Int :=
    max 1 (summary.total_cases.getD
      (if results.length = 0 then 1 else (results.length : Int)))
  let pass_rate := summary.pass_rate.getD 0
  let avg_overall := summary.average_overall_score.getD 0
  let dim_avgs := summary.dimension_averages
  let grounding := (List.lookup "factual_grounding" dim_avgs).getD 0
  let actionability := (List.lookup "actionability" dim_avgs).getD 0
  let usefulness := (List.lookup "usefulness" dim_avgs).getD 0
  let error_cases : Int := summary.error_cases.getD 0
  let error_rate : ℚ := (error_cases : ℚ) / (total : ℚ)
  let empty_content_cases := results.countP (fun r => r.empty_content == some true)
  let hard_failure_cases := results.countP (fun r => !r.hard_failures.isEmpty)
  let empty_content_rate : ℚ := (empty_content_cases : ℚ) / (total : ℚ)
  let hard_failure_rate : ℚ := (hard_failure_cases : ℚ) / (total : ℚ)
  let checks : List Check :=
    [ { name := "pass_rate", value := pass_rate,
        bound := Bound.minB args.min_pass_rate,
        ok := decide (pass_rate ≥ args.min_pass_rate) },
      { name := "overall_score", value := avg_overall,
        bound := Bound.minB args.min_overall,
        ok := decide (avg_overall ≥ args.min_overall) },
      { name := "grounding", value := grounding,
        bound := Bound.minB args.min_grounding,
        ok := decide (grounding ≥ args.min_grounding) },
      { name := "actionability", value := actionability,
        bound := Bound.minB args.min_actionability,
        ok := decide (actionability ≥ args.min_actionability) },
      { name := "usefulness", value := usefulness,
        bound := Bound.minB args.min_usefulness,
        ok := decide (usefulness ≥ args.min_usefulness) },
      { name := "error_rate", value := error_rate,
        bound := Bound.maxB args.max_error_rate,
        ok := decide (error_rate ≤ args.max_error_rate) },
      { name := "empty_content_rate", value := empty_content_rate,
        bound := Bound.maxB args.max_empty_content_rate,
        ok := decide (empty_content_rate ≤ args.max_empty_content_rate) },
      { name := "hard_failure_rate", value := hard_failure_rate,
        bound := Bound.maxB args.max_hard_failure_rate,
        ok := decide (hard_failure_rate ≤ args.max_hard_failure_rate) } ]
  let failedList := checks.filter (fun c => !c.ok)
  { passed := failedList.isEmpty
    total_cases := total
    error_rate := error_rate
    empty_content_rate := empty_content_rate
    hard_failure_rate := hard_failure_rate
    checks := checks
    failed_checks := failedList }

/-! ### Claim-support inputs and spec-side definitions -/

/-- Spec-side reading of a gate check: inclusive comparison of the value
against its bound (`value == bound` is a pass). -/
def check_ok_spec (c : Check) : Bool :=
  match c.bound with
  | Bound.minB b => decide (c.value ≥ b)
  | Bound.maxB b => decide (c.value ≤ b)

/-- A report whose `pass_rate` sits exactly on the default gate bound. -/
def gateBoundaryReport : GateReport :=
  { summary := { pass_rate := some 0.80 } }

/-- Report for the C7 counterexample: the stored summary says zero error
cases while the results array contains exactly one error entry. -/
def c7Report : GateReport :=
  { summary := { total_cases := some 1, error_cases := some 0 }
    results := [{ id := "only", passed := false, error := some "boom" }] }

/-- Case used for the C3 failing input: well-formed, with a prompt. -/
def c3Case : EvalCase := { id := some "t1", prompt := some "explain the outage" }

/-- The hard-failure contribution of one dimension in the evaluation loop
of `evaluate_case` (the entry appended when the dimension is required and
below its minimum). -/
def hfOpt (signals : List (String × SignalConfig)) (dims0 : Dims) (dim : String) :
    List HardFailure :=
  let required := ((Dims.get dims0 dim).required).getD true
  let min_score : ℚ := (signal_cfg signals dim).min_score.getD (DEFAULT_MIN_SCORES dim)
  if required && !((!required) || decide ((Dims.get dims0 dim).score ≥ min_score)) then
    [{ dimension := dim, score := (Dims.get dims0 dim).score, min := min_score }]
  else []

/-- Case for the C1 witness: empty signal config, neutral prompt. -/
def c1Case : EvalCase := { prompt := some "summarize the project status" }

/-- Case for the C9 witness: both actionability and contradiction-handling
configs explicitly set `required = false`. -/
def c9Case : EvalCase :=
  { prompt := some "hello"
    expected_signals := [("actionability", { required := some false }),
                         ("contradiction_handling", { required := some false })] }

/-- Dimension results realizing the C2 scenario: factual grounding scores
0.40 while the other dimensions pass their minimums. -/
def c2Dims : Dims :=
  { actionability := { score := 0.9, rubric_score := 3 }
    factual_grounding := { score := 0.4, rubric_score := 1 }
    contradiction_handling := { score := 1, rubric_score := 3, required := some true }
    usefulness := { score := 0.9, rubric_score := 3 } }

/-- Weights making the overall score 0.90 despite the grounding failure. -/
def c2Weights : List (String × ℚ) :=
  [("actionability", 1), ("factual_grounding", 0),
   ("contradiction_handling", 0), ("usefulness", 0)]

/-- The response text of the C8 end-to-end scenario. -/
def c8Text : String :=
  "- Next step: fix the retry bug\n- Owner: alice\n- Timeline: this week\n"

/-- Dimension results of the C4 example's first scored case (0.8). -/
def c4DimsA : Dims :=
  { actionability := { score := 0.8, rubric_score := 2 }
    factual_grounding := { score := 0.8, rubric_score := 2 }
    contradiction_handling := { score := 0.8, rubric_score := 2, required := some true }
    usefulness := { score := 0.8, rubric_score := 2 } }

/-- Dimension results of the C4 example's second scored case (0.6). -/
def c4DimsB : Dims :=
  { actionability := { score := 0.6, rubric_score := 1 }
    factual_grounding := { score := 0.6, rubric_score := 1 }
    contradiction_handling := { score := 0.6, rubric_score := 1, required := some true }
    usefulness := { score := 0.6, rubric_score := 1 } }

def c4EntryA : ResultEntry :=
  { id := "case-a", passed := true, overall_score := some 0.8,
    dims := some c4DimsA, empty_content := some false }

def c4EntryB : ResultEntry :=
  { id := "case-b", passed := true, overall_score := some 0.6,
    dims := some c4DimsB, empty_content := some false }

def c4ErrEntry : ResultEntry :=
  { id := "case-c", passed := false, error := some "reason command failed" }

def c4Roll : Rollup :=
  { actionability := [0.8, 0.6]
    factual_grounding := [0.8, 0.6]
    contradiction_handling := [0.8, 0.6]
    usefulness := [0.8, 0.6] }

/-- A case with neither `prompt` nor `query` (the C5 failing shape). -/
def c5Case : EvalCase := { id := some "no-prompt" }

/-- A fixture containing only the prompt-less case. -/
def c5Fixture : RawFixture := { cases := some [c5Case] }

/-- A case without any `expected_signals` entry. -/
def c5GoodCase : EvalCase := { id := some "sig-default", prompt := some "hi" }

def c5Payload : Payload := { content := some "hello", tokens_out := some 3 }

theorem filter_bnot_isEmpty {α : Type} (p : α → Bool) (l : List α) :
    (l.filter (fun a => !(p a))).isEmpty = l.all p := by
  induction l with
  | nil => rfl
  | cons a t ih =>
    cases hpa : p a <;> simp [List.filter_cons, hpa, List.all_cons, ih]

/-- `round(q, 4)` is the identity on rationals with at most four decimal
places. -/
theorem pyRound4_of_int (n : ℤ) (q : ℚ) (h : q * 10000 = (n : ℚ)) :
    pyRound4 q = q := by
  unfold pyRound4
  rw [h]
  norm_num [Int.floor_intCast]
  rw [eq_comm, eq_div_iff (by norm_num : (10000 : ℚ) ≠ 0)]
  linarith

/-- C6: every gate check is inclusive at its boundary (its `ok` flag is the
inclusive comparison of its value against its bound, so `value == bound`
passes), the gate verdict is the conjunction of all checks, and the
concrete boundary report with `pass_rate == 0.80` against
`min_pass_rate == 0.80` yields `ok == true` for that check. -/
theorem claim_C6 :
    (∀ (report : GateReport) (args : GateArgs),
      ((gateMain report args).checks.all (fun c => c.ok == check_ok_spec c)) = true
      ∧ (gateMain report args).passed
          = (gateMain report args).checks.all (fun c => c.ok)) ∧
    ((gateMain gateBoundaryReport {}).checks.head?.map
        (fun c => (c.name, c.value, c.ok)) = some ("pass_rate", 0.80, true)) := by
  refine ⟨fun report args => ⟨?_, ?_⟩, ?_⟩
  · simp [gateMain, check_ok_spec]
  · simpa [gateMain] using
      filter_bnot_isEmpty (fun c : Check => c.ok) (gateMain report args).checks
  · norm_num [gateMain, gateBoundaryReport, decide_eq_true_eq]

/-- C7 counterexample: on `c7Report` the gate's `error_rate` is `0`, while
the count of error entries in the results array divided by the total is
`1`; so the gate does not recompute `error_rate` from `results` as the
claim states. -/
theorem claim_C7_counterexample :
    (gateMain c7Report {}).error_rate = 0
    ∧ c7Report.results.countP (fun r => r.error.isSome) = 1
    ∧ (gateMain c7Report {}).total_cases = 1
    ∧ ((c7Report.results.countP (fun r => r.error.isSome) : ℚ)
        / ((gateMain c7Report {}).total_cases : ℚ) = 1)
    ∧ (gateMain c7Report {}).error_rate
        ≠ ((c7Report.results.countP (fun r => r.error.isSome) : ℚ)
            / ((gateMain c7Report {}).total_cases : ℚ)) := by
  refine ⟨?_, ?_, ?_, ?_, ?_⟩ <;>
    norm_num [gateMain, c7Report, List.countP_cons, List.countP_nil]

/-- C7 amended: the gate recomputes `empty_content_rate` and
`hard_failure_rate` from the report's `results` array, but takes
`error_rate` from the stored `summary.error_cases` divided by the total
(`max(1, summary.total_cases, defaulting to len(results) or 1)`); it does
not recount error entries in `results`. -/
theorem claim_C7_amended (report : GateReport) (args : GateArgs) :
    (gateMain report args).total_cases
      = max 1 (report.summary.total_cases.getD
          (if report.results.length = 0 then 1 else (report.results.length : Int)))
    ∧ (gateMain report args).error_rate
        = ((report.summary.error_cases.getD 0 : Int) : ℚ)
          / (((gateMain report args).total_cases : Int) : ℚ)
    ∧ (gateMain report args).empty_content_rate
        = ((report.results.countP (fun r => r.empty_content == some true) : Nat) : ℚ)
          / (((gateMain report args).total_cases : Int) : ℚ)
    ∧ (gateMain report args).hard_failure_rate
        = ((report.results.countP (fun r => !r.hard_failures.isEmpty) : Nat) : ℚ)
          / (((gateMain report args).total_cases : Int) : ℚ) :=
  ⟨rfl, rfl, rfl, rfl⟩

/-- C3 (code divergence): a suite containing a single case whose external
call exceeds the timeout does not produce a per-case error entry — the
uncaught `TimeoutExpired` aborts the whole loop, leaving no results. -/
theorem claim_C3 :
    runCases [(c3Case, ExecOutcome.timedOut)] [] 0.65 = Except.error ()
    ∧ resultsOf (runCases [(c3Case, ExecOutcome.timedOut)] [] 0.65) = []
    ∧ (∀ (pre : List ResultEntry) (roll : Rollup),
        runCasesGo [] 0.65 1 [(c3Case, ExecOutcome.timedOut)] (pre, roll)
          = Except.error ()) :=
  ⟨rfl, rfl, fun _ _ => rfl⟩

theorem case_verdict_hf_spine (signals : List (String × SignalConfig)) (dims0 : Dims)
    (weights : List (String × ℚ)) (cmo : ℚ) :
    (case_verdict signals dims0 weights cmo).hard_failures
      = hfOpt signals dims0 "actionability" ++ hfOpt signals dims0 "factual_grounding"
        ++ hfOpt signals dims0 "contradiction_handling"
        ++ hfOpt signals dims0 "usefulness" := by
  simp only [case_verdict, DIMENSIONS, List.foldl_cons, List.foldl_nil, hfOpt]
  simp [Dims.get, Dims.update]
  split_ifs <;> simp

theorem hfOpt_dimension (signals : List (String × SignalConfig)) (dims0 : Dims)
    (dim : String) : ∀ e ∈ hfOpt signals dims0 dim, e.dimension = dim := by
  simp only [hfOpt]
  split_ifs <;> simp

theorem hfOpt_not_required (signals : List (String × SignalConfig)) (dims0 : Dims)
    (dim : String) (h : (Dims.get dims0 dim).required = some false) :
    hfOpt signals dims0 dim = [] := by
  simp [hfOpt, h]

theorem any_hfOpt_self (signals : List (String × SignalConfig)) (dims0 : Dims)
    (dim : String) (h : (Dims.get dims0 dim).required = none) :
    (hfOpt signals dims0 dim).any (fun e => e.dimension == dim)
      = decide ((Dims.get dims0 dim).score
          < (signal_cfg signals dim).min_score.getD (DEFAULT_MIN_SCORES dim)) := by
  by_cases hge : (Dims.get dims0 dim).score
      ≥ (signal_cfg signals dim).min_score.getD (DEFAULT_MIN_SCORES dim)
  · simp [hfOpt, h, decide_eq_true hge, decide_eq_false (not_lt.mpr hge)]
  · simp [hfOpt, h, decide_eq_false hge, decide_eq_true (lt_of_not_ge hge)]

theorem any_hfOpt_ne (signals : List (String × SignalConfig)) (dims0 : Dims)
    (dim dim2 : String) (hne : dim ≠ dim2) :
    (hfOpt signals dims0 dim).any (fun e => e.dimension == dim2) = false := by
  simp only [hfOpt]
  split_ifs <;> simp [hne]

/-- The evaluation loop updates only `min_score`/`passed` on each
dimension dict: score, rubric and required flag are those of the freshly
scored results. -/
theorem case_verdict_fields (signals : List (String × SignalConfig)) (dims0 : Dims)
    (weights : List (String × ℚ)) (cmo : ℚ) :
    ((case_verdict signals dims0 weights cmo).dimension_scores).actionability.score
        = dims0.actionability.score
    ∧ ((case_verdict signals dims0 weights cmo).dimension_scores).actionability.required
        = dims0.actionability.required
    ∧ ((case_verdict signals dims0 weights cmo).dimension_scores).factual_grounding.score
        = dims0.factual_grounding.score
    ∧ ((case_verdict signals dims0 weights cmo).dimension_scores).factual_grounding.required
        = dims0.factual_grounding.required
    ∧ ((case_verdict signals dims0 weights cmo).dimension_scores).contradiction_handling.score
        = dims0.contradiction_handling.score
    ∧ ((case_verdict signals dims0 weights cmo).dimension_scores).contradiction_handling.rubric_score
        = dims0.contradiction_handling.rubric_score
    ∧ ((case_verdict signals dims0 weights cmo).dimension_scores).contradiction_handling.required
        = dims0.contradiction_handling.required
    ∧ ((case_verdict signals dims0 weights cmo).dimension_scores).usefulness.score
        = dims0.usefulness.score
    ∧ ((case_verdict signals dims0 weights cmo).dimension_scores).usefulness.required
        = dims0.usefulness.required := by
  simp [case_verdict, DIMENSIONS, Dims.get, Dims.update]

/-- C1: for a case whose contradiction-handling config has no explicit
`required` entry and whose prompt does not match the conflict-hint
pattern, the contradiction-handling result is vacuous — score exactly 1.0,
rubric 3, required false — and no hard-failure entry of the case names the
dimension, whatever the response text. -/
theorem claim_C1 (case : EvalCase) (content : String)
    (weights : List (String × ℚ)) (cmo : ℚ)
    (hreq : (signal_cfg case.expected_signals "contradiction_handling").required = none)
    (hhint : contradictionPromptHint (case.prompt.getD "") = false) :
    (evaluate_case case content weights cmo).dimension_scores.contradiction_handling.score = 1
    ∧ (evaluate_case case content weights cmo).dimension_scores.contradiction_handling.rubric_score = 3
    ∧ (evaluate_case case content weights cmo).dimension_scores.contradiction_handling.required
        = some false
    ∧ ∀ e ∈ (evaluate_case case content weights cmo).hard_failures,
        e.dimension ≠ "contradiction_handling" := by
  have hv : score_contradiction_handling (case.prompt.getD "") content
      (signal_cfg case.expected_signals "contradiction_handling")
      = { score := 1, rubric_score := 3, required := some false,
          details := { mode := some "not-required" } } := by
    unfold score_contradiction_handling contradiction_required
    rw [hreq, hhint]
    rfl
  simp only [evaluate_case, hv]
  refine ⟨?_, ?_, ?_, ?_⟩
  · exact (case_verdict_fields _ _ _ _).2.2.2.2.1
  · exact (case_verdict_fields _ _ _ _).2.2.2.2.2.1
  · exact (case_verdict_fields _ _ _ _).2.2.2.2.2.2.1
  · rw [case_verdict_hf_spine]
    intro e he
    simp only [List.mem_append] at he
    rcases he with (((h | h) | h) | h)
    · have := hfOpt_dimension _ _ _ e h
      rw [this]; decide
    · have := hfOpt_dimension _ _ _ e h
      rw [this]; decide
    · rw [hfOpt_not_required _ _ _ (by simp [Dims.get])] at h
      exact absurd h (List.not_mem_nil e)
    · have := hfOpt_dimension _ _ _ e h
      rw [this]; decide

/-- C1 witness: the theorem applied to a concrete case whose prompt has no
conflict hint, with a response text that does contain the word
"conflict". -/
theorem claim_C1_witness :
    (evaluate_case c1Case "there is a conflict between the two sources" [] 0.65).dimension_scores.contradiction_handling.score = 1
    ∧ (evaluate_case c1Case "there is a conflict between the two sources" [] 0.65).dimension_scores.contradiction_handling.rubric_score = 3
    ∧ (evaluate_case c1Case "there is a conflict between the two sources" [] 0.65).dimension_scores.contradiction_handling.required
        = some false
    ∧ ∀ e ∈ (evaluate_case c1Case "there is a conflict between the two sources" [] 0.65).hard_failures,
        e.dimension ≠ "contradiction_handling" :=
  claim_C1 c1Case "there is a conflict between the two sources" [] 0.65
    rfl (by decide)

/-- C9: the per-dimension `required` key is consulted only for
contradiction handling — for the other three dimensions a hard-failure
entry is present exactly when the dimension's (rounded) score is below its
configured minimum, whatever the `required` value in its config; while a
contradiction-handling config with `required = false` never yields a
hard-failure entry. -/
theorem claim_C9 (case : EvalCase) (content : String)
    (weights : List (String × ℚ)) (cmo : ℚ) :
    ((evaluate_case case content weights cmo).hard_failures.any
        (fun e => e.dimension == "actionability")
      = decide ((evaluate_case case content weights cmo).dimension_scores.actionability.score
          < (signal_cfg case.expected_signals "actionability").min_score.getD
              (DEFAULT_MIN_SCORES "actionability")))
    ∧ ((evaluate_case case content weights cmo).hard_failures.any
        (fun e => e.dimension == "factual_grounding")
      = decide ((evaluate_case case content weights cmo).dimension_scores.factual_grounding.score
          < (signal_cfg case.expected_signals "factual_grounding").min_score.getD
              (DEFAULT_MIN_SCORES "factual_grounding")))
    ∧ ((evaluate_case case content weights cmo).hard_failures.any
        (fun e => e.dimension == "usefulness")
      = decide ((evaluate_case case content weights cmo).dimension_scores.usefulness.score
          < (signal_cfg case.expected_signals "usefulness").min_score.getD
              (DEFAULT_MIN_SCORES "usefulness")))
    ∧ ((signal_cfg case.expected_signals "contradiction_handling").required = some false →
        (evaluate_case case content weights cmo).hard_failures.any
          (fun e => e.dimension == "contradiction_handling") = false) := by
  refine ⟨?_, ?_, ?_, fun h => ?_⟩
  · simp only [evaluate_case]
    rw [case_verdict_hf_spine, List.any_append, List.any_append, List.any_append]
    rw [any_hfOpt_self _ _ _ (by simp [Dims.get, score_actionability]),
      any_hfOpt_ne _ _ "factual_grounding" _ (by decide),
      any_hfOpt_ne _ _ "contradiction_handling" _ (by decide),
      any_hfOpt_ne _ _ "usefulness" _ (by decide)]
    simp [case_verdict_fields, Dims.get]
  · simp only [evaluate_case]
    rw [case_verdict_hf_spine, List.any_append, List.any_append, List.any_append]
    rw [any_hfOpt_self _ _ _ (by simp [Dims.get, score_factual_grounding]),
      any_hfOpt_ne _ _ "actionability" _ (by decide),
      any_hfOpt_ne _ _ "contradiction_handling" _ (by decide),
      any_hfOpt_ne _ _ "usefulness" _ (by decide)]
    simp [case_verdict_fields, Dims.get]
  · simp only [evaluate_case]
    rw [case_verdict_hf_spine, List.any_append, List.any_append, List.any_append]
    rw [any_hfOpt_self _ _ _ (by simp [Dims.get, score_usefulness]),
      any_hfOpt_ne _ _ "actionability" _ (by decide),
      any_hfOpt_ne _ _ "factual_grounding" _ (by decide),
      any_hfOpt_ne _ _ "contradiction_handling" _ (by decide)]
    simp [case_verdict_fields, Dims.get]
  · have rc : (score_contradiction_handling (case.prompt.getD "") content
        (signal_cfg case.expected_signals "contradiction_handling")).required
        = some false := by
      unfold score_contradiction_handling contradiction_required
      rw [h]
      rfl
    simp only [evaluate_case]
    rw [case_verdict_hf_spine, List.any_append, List.any_append, List.any_append]
    rw [hfOpt_not_required _ _ "contradiction_handling" (by simp [Dims.get]; exact rc),
      any_hfOpt_ne _ _ "actionability" "contradiction_handling" (by decide),
      any_hfOpt_ne _ _ "factual_grounding" "contradiction_handling" (by decide),
      any_hfOpt_ne _ _ "usefulness" "contradiction_handling" (by decide)]
    simp

/-- C9 witness: on an empty response, the actionability dimension hard
fails even though its config sets `required = false`, while the
contradiction-handling dimension (same `required = false`) does not. -/
theorem claim_C9_witness :
    (evaluate_case c9Case "" [] 0.65).hard_failures.any
        (fun e => e.dimension == "actionability") = true
    ∧ (evaluate_case c9Case "" [] 0.65).hard_failures.any
        (fun e => e.dimension == "contradiction_handling") = false := by
  have h := claim_C9 c9Case "" [] 0.65
  refine ⟨h.1.trans ?_, h.2.2.2 rfl⟩
  have h0 : unique_hits "" ACTION_TERMS = [] := by decide
  have hb : bulletCount "" = 0 := by decide
  have hd : dateOwnerSearch (normalize_text "") = false := by decide
  have hs : (evaluate_case c9Case "" [] 0.65).dimension_scores.actionability.score = 0 := by
    simp only [evaluate_case]
    rw [(case_verdict_fields _ _ _ _).1]
    have hcfg : signal_cfg c9Case.expected_signals "actionability"
        = { required := some false } := rfl
    simp only [score_actionability, keyword_score, hcfg, Option.getD_none, h0, hb, hd]
    norm_num
    exact pyRound4_of_int 0 0 (by norm_num)
  rw [hs]
  have hmin : (signal_cfg c9Case.expected_signals "actionability").min_score.getD
      (DEFAULT_MIN_SCORES "actionability") = 0.55 := rfl
  rw [hmin]
  exact decide_eq_true (by norm_num)

/-- C2: for every case the verdict satisfies
`passed = (overall_score ≥ case_min_overall) and (hard_failures empty)`;
and in the concrete scenario, a case with overall score 0.90 (above the
0.70 floor) whose factual-grounding score 0.40 misses its required minimum
0.50 is failed with exactly that hard-failure entry. -/
theorem claim_C2 :
    (∀ (case : EvalCase) (content : String) (weights : List (String × ℚ))
       (cmo : ℚ),
      (evaluate_case case content weights cmo).passed = true
        ↔ ((evaluate_case case content weights cmo).overall_raw ≥ cmo
            ∧ (evaluate_case case content weights cmo).hard_failures = []))
    ∧ ((case_verdict [] c2Dims c2Weights 0.70).overall_raw = 0.90
       ∧ (case_verdict [] c2Dims c2Weights 0.70).overall_score = 0.90
       ∧ ((0.90 : ℚ) ≥ 0.70)
       ∧ (case_verdict [] c2Dims c2Weights 0.70).passed = false
       ∧ (case_verdict [] c2Dims c2Weights 0.70).hard_failures
           = [{ dimension := "factual_grounding", score := 0.40, min := 0.50 }]) := by
  constructor
  · intro case content weights cmo
    simp [evaluate_case, case_verdict, Bool.and_eq_true, decide_eq_true_eq,
      List.isEmpty_iff]
  · have d1 : decide ((0.9 : ℚ) ≥ 0.55) = true := decide_eq_true (by norm_num)
    have d2 : decide ((0.4 : ℚ) ≥ 0.5) = false := decide_eq_false (by norm_num)
    have d3 : decide ((1 : ℚ) ≥ 0.5) = true := decide_eq_true (by norm_num)
    have d4 : decide ((0.9 : ℚ) ≥ 0.6) = true := decide_eq_true (by norm_num)
    simp [case_verdict, DIMENSIONS, Dims.get, Dims.update, signal_cfg,
      DEFAULT_WEIGHTS, DEFAULT_MIN_SCORES, c2Dims, c2Weights, List.lookup,
      d1, d2, d3, d4]
    norm_num
    exact pyRound4_of_int 9000 _ (by norm_num)

/-- C8 counterexample: the unique actionability hits for the scenario text
are four, not three — the term `fix` (from `ACTION_TERMS`) also occurs in
the text — so the claimed hit list `[next step, owner, timeline]` is not
the computed one. -/
theorem claim_C8_counterexample :
    (score_actionability c8Text {}).details.hits
        = ["fix", "next step", "owner", "timeline"]
    ∧ (score_actionability c8Text {}).details.hit_count = 4
    ∧ (score_actionability c8Text {}).details.hits
        ≠ ["next step", "owner", "timeline"] := by
  refine ⟨by decide, by decide, by decide⟩

/-- C8 amended: for the scenario text under the default actionability
terms (`min_hits = 1`), the unique hits are exactly the four terms `fix`,
`next step`, `owner`, `timeline`; `keyword_score = 1.0`;
`heuristic_score = 1.0` (bullets = 3 → +0.35, action hits = 4 → +0.35,
owner/date present → +0.30); the final score is
`0.60·1.0 + 0.40·1.0 = 1.0` and the rubric score is 3. -/
theorem claim_C8_amended :
    (score_actionability c8Text {}).score = 1
    ∧ (score_actionability c8Text {}).rubric_score = 3
    ∧ (score_actionability c8Text {}).details.keyword_score = 1
    ∧ (score_actionability c8Text {}).details.heuristic_score = 1
    ∧ (score_actionability c8Text {}).details.bullet_lines = 3
    ∧ (score_actionability c8Text {}).details.action_term_hits = 4
    ∧ (score_actionability c8Text {}).details.owner_or_time_detected = true
    ∧ (score_actionability c8Text {}).details.min_hits = 1
    ∧ (score_actionability c8Text {}).details.hits
        = ["fix", "next step", "owner", "timeline"] := by
  have h1 : unique_hits c8Text ACTION_TERMS
      = ["fix", "next step", "owner", "timeline"] := by decide
  have h2 : bulletCount c8Text = 3 := by decide
  have h3 : dateOwnerSearch (normalize_text c8Text) = true := by decide
  have hr1 : pyRound4 1 = 1 := pyRound4_of_int 10000 1 (by norm_num)
  simp only [score_actionability, keyword_score, Option.getD, h1, h2, h3]
  norm_num [hr1, to_rubric]

theorem rollup_get_empty (dim : String) : ({} : Rollup).get dim = [] := by
  simp only [Rollup.get]
  split_ifs <;> rfl

theorem rollup_get_appendScores (r : Rollup) (ds : Dims) (dim : String) :
    (r.appendScores ds).get dim = r.get dim ++ [(Dims.get ds dim).score] := by
  simp only [Rollup.get, Rollup.appendScores, Dims.get]
  split_ifs <;> rfl

/-- Loop invariant of the suite loop: the per-dimension rollup holds
exactly the scores of the result entries that carry a dimension dict —
error entries contribute nothing. -/
theorem runCasesGo_rollup (weights : List (String × ℚ)) (cmo : ℚ) (dim : String) :
    ∀ (pairs : List (EvalCase × ExecOutcome)) (idx : Nat)
      (res : List ResultEntry) (roll : Rollup),
    roll.get dim = res.filterMap (fun e => e.dims.map (fun ds => (Dims.get ds dim).score)) →
    (rollupOf (runCasesGo weights cmo idx pairs (res, roll))).get dim
      = (resultsOf (runCasesGo weights cmo idx pairs (res, roll))).filterMap
          (fun e => e.dims.map (fun ds => (Dims.get ds dim).score)) := by
  intro pairs
  induction pairs with
  | nil =>
    intro idx res roll h
    simpa [runCasesGo, resultsOf, rollupOf] using h
  | cons hd tl ih =>
    intro idx res roll h
    obtain ⟨case, outcome⟩ := hd
    simp only [runCasesGo]
    by_cases hp : ((orStr case.prompt case.query).getD "") = ""
    · rw [if_pos hp]
      apply ih
      rw [List.filterMap_append, h]
      simp
    · rw [if_neg hp]
      cases outcome with
      | timedOut =>
        simp [run_reason, resultsOf, rollupOf, rollup_get_empty]
      | exitNonzero rc out err =>
        simp only [run_reason]
        by_cases hrc : rc ≠ 0
        · rw [if_pos hrc]
          apply ih
          rw [List.filterMap_append, h]
          simp
        · rw [if_neg hrc]
          apply ih
          rw [rollup_get_appendScores, List.filterMap_append, h]
          simp
      | exitZeroBadJson msg =>
        simp only [run_reason]
        rw [if_pos (by norm_num : (2 : Int) ≠ 0)]
        apply ih
        rw [List.filterMap_append, h]
        simp
      | exitZeroJson out p =>
        simp only [run_reason]
        rw [if_neg (by norm_num : ¬((0 : Int) ≠ 0))]
        apply ih
        rw [rollup_get_appendScores, List.filterMap_append, h]
        simp

/-- C4: error cases (entries with no score) count toward `total_cases` and
the `pass_rate` denominator, but are excluded from `average_overall_score`
and from every dimension average — the rollup feeding the averages holds
exactly the scores of the scored entries.  In the concrete example
`[scored 0.8, scored 0.6, error]`, the actionability average is `0.7`
while the pass-rate denominator is `3`. -/
theorem claim_C4 :
    (∀ (pairs : List (EvalCase × ExecOutcome)) (w : List (String × ℚ))
       (cmo : ℚ) (dim : String),
      (rollupOf (runCases pairs w cmo)).get dim
        = (resultsOf (runCases pairs w cmo)).filterMap
            (fun e => e.dims.map (fun ds => (Dims.get ds dim).score)))
    ∧ (∀ (res : List ResultEntry) (roll : Rollup) (smpr : ℚ)
         (sdm : List (String × ℚ)) (foe : Bool),
        (summarize res roll smpr sdm foe).total_cases = res.length
        ∧ (summarize res roll smpr sdm foe).error_cases
            = res.countP (fun r => r.error.isSome)
        ∧ (summarize res roll smpr sdm foe).pass_rate
            = pyRound4 (if res.length = 0 then 0
                else (res.countP (fun r => r.passed) : ℚ) / (res.length : ℚ))
        ∧ (summarize res roll smpr sdm foe).average_overall_score
            = pyRound4 (meanQ (res.filterMap (fun r => r.overall_score)))
        ∧ (summarize res roll smpr sdm foe).dimension_averages
            = DIMENSIONS.map (fun d => (d, pyRound4 (meanQ (roll.get d)))))
    ∧ (c4Roll.get "actionability"
        = [c4EntryA, c4EntryB, c4ErrEntry].filterMap
            (fun e => e.dims.map (fun ds => (Dims.get ds "actionability").score))
       ∧ (summarize [c4EntryA, c4EntryB, c4ErrEntry] c4Roll 0.7 [] false).total_cases = 3
       ∧ (summarize [c4EntryA, c4EntryB, c4ErrEntry] c4Roll 0.7 [] false).error_cases = 1
       ∧ List.lookup "actionability"
           (summarize [c4EntryA, c4EntryB, c4ErrEntry] c4Roll 0.7 [] false).dimension_averages
           = some 0.7
       ∧ (summarize [c4EntryA, c4EntryB, c4ErrEntry] c4Roll 0.7 [] false).pass_rate
           = pyRound4 ((2 : ℚ) / 3)) := by
  refine ⟨fun pairs w cmo dim => ?_,
          fun res roll smpr sdm foe => ⟨rfl, rfl, rfl, rfl, rfl⟩,
          rfl, rfl, rfl, ?_, ?_⟩
  · exact runCasesGo_rollup w cmo dim pairs 1 [] {} (by simp [rollup_get_empty])
  · simp [summarize, DIMENSIONS, List.lookup, meanQ, c4Roll, Rollup.get]
    norm_num
    exact pyRound4_of_int 7000 _ (by norm_num)
  · have harg : (if ([c4EntryA, c4EntryB, c4ErrEntry] : List ResultEntry).length = 0
        then (0 : ℚ)
        else (([c4EntryA, c4EntryB, c4ErrEntry].countP (fun r => r.passed) : ℚ)
          / (([c4EntryA, c4EntryB, c4ErrEntry].length : ℚ)))) = 2 / 3 := by
      norm_num [List.countP_cons, List.countP_nil, c4EntryA, c4EntryB, c4ErrEntry]
    exact congrArg pyRound4 harg

/-- C5 counterexample: a fixture whose only case has no prompt loads
without error, and the suite loop turns that case into a per-case error
entry instead of raising — so a case without a prompt does not abort the
run before any case executes. -/
theorem claim_C5_counterexample :
    load_fixture c5Fixture = Except.ok [c5Case]
    ∧ runCases [(c5Case, ExecOutcome.timedOut)] [] 0.65
        = Except.ok ([{ id := "no-prompt", passed := false,
                        error := some "missing prompt/query" }], {}) :=
  ⟨rfl, rfl⟩

/-- C5 amended: `load_fixture` raises exactly when the effective cases
array (`cases`, or the legacy `prompts`) is missing or empty; a case
without a prompt/query is recorded as a non-fatal per-case error entry
(`missing prompt/query`) and the run continues with the remaining cases;
a case without `expected_signals` is evaluated normally with default
signal configuration. -/
theorem claim_C5_amended :
    (∀ raw : RawFixture,
      (match load_fixture raw with
       | Except.ok _ => true
       | Except.error _ => false)
        = !(((match raw.cases with
              | some cs => some cs
              | none => raw.prompts).getD []).isEmpty))
    ∧ (resultsOf (runCases [(c5Case, ExecOutcome.timedOut),
          (c5GoodCase, ExecOutcome.exitZeroJson "" c5Payload)] [] 0.65)).map
        (fun e => (e.id, e.error, e.overall_score.isSome, e.dims.isSome))
        = [("no-prompt", some "missing prompt/query", false, false),
           ("sig-default", none, true, true)] := by
  constructor
  · intro raw
    obtain ⟨rc, rp⟩ := raw
    cases rc with
    | none =>
      cases rp with
      | none => rfl
      | some ps => cases ps with | nil => rfl | cons a l => rfl
    | some cs => cases cs with | nil => rfl | cons a l => rfl
  · rfl

/-- C10: `keyword_score` is total — `min_hits` is clamped to at least 1
before the division, and the returned keyword score lies in `[0, 1]` for
every text and configuration (including absent, zero or negative
`min_hits`). -/
theorem claim_C10 (text : String) (cfg : SignalConfig)
    (fallback_terms : List String) :
    1 ≤ (keyword_score text cfg fallback_terms).2.min_hits
    ∧ 0 ≤ (keyword_score text cfg fallback_terms).1
    ∧ (keyword_score text cfg fallback_terms).1 ≤ 1 := by
  unfold keyword_score
  refine ⟨le_max_left _ _, ?_, min_le_left _ _⟩
  have hm : (1 : ℚ) ≤ ((max 1 (cfg.min_hits.getD 1) : Int) : ℚ) := by
    exact_mod_cast le_max_left 1 (cfg.min_hits.getD 1)
  exact le_min (by norm_num)
    (div_nonneg (by positivity) (le_trans zero_le_one hm))

/-! ### Helper lemmas -/

/-! ### Theorems for the claims -/

end ReasonEval

